import Mathlib

/-!
# Verification of the BananaSlide multi-provider image-generation core

A shallow embedding, in Lean 4, of the algorithmic core of the BananaSlide
repository: the Volcengine dimension resolver (`calculateSize`), the
Stability dimension table (`getDimensionsFromAspectRatio`), the per-adapter
retry loops of `generateImage`, the variation fan-out of
`generateVariations`, the provider factory (`ImageGeneratorFactory`),
the Gemini request construction, and the batch sequencer
(`handleBatchGenerate` / `generateSlide`).

JavaScript strings are modelled as `List Char` (the type `JStr`), so that
every string operation used by the source (split, parseInt, includes,
startsWith) is a structurally recursive, kernel-computable Lean function.
Floating-point arithmetic in the dimension resolver is modelled by exact
real arithmetic: every intermediate float in the source is of the form
`√(rational)`, so dimensions are tracked by their rational radicands and
the final `Math.round(x / 32) * 32` steps are computed by an exact
integer round-half-up of a rational square root (`roundSqrtDiv`, justified
against `Nat.sqrt` below).
-/

/-- JavaScript strings, modelled as lists of characters so that all string
operations reduce in the kernel. -/
abbrev JStr := List Char

/-- `startsWithL hay needle`: does `hay` start with `needle`?
(JS `String.prototype.startsWith`.) -/
def startsWithL : JStr → JStr → Bool
  | _, [] => true
  | [], _ :: _ => false
  | a :: as, b :: bs => a = b && startsWithL as bs

/-- `containsL hay needle`: does `needle` occur as a contiguous substring of
`hay`? (JS `String.prototype.includes`; an empty needle is always found.) -/
def containsL : JStr → JStr → Bool
  | [], needle => needle.isEmpty
  | h :: t, needle => startsWithL (h :: t) needle || containsL t needle

/-- `splitOnC sep s`: split `s` on every occurrence of the character `sep`,
keeping empty pieces (JS `String.prototype.split` with a one-character
separator). -/
def splitOnC (sep : Char) : JStr → List JStr
  | [] => [[]]
  | c :: rest =>
    let r := splitOnC sep rest
    if c = sep then [] :: r
    else
      match r with
      | [] => [[c]]
      | p :: ps => (c :: p) :: ps

/-- Decimal digit test. -/
def isDigitC (c : Char) : Bool := '0' ≤ c && c ≤ '9'

/-- Accumulate a list of decimal digits into a natural number. -/
def digitsToNat (ds : JStr) : ℕ :=
  ds.foldl (fun acc c => 10 * acc + (c.toNat - '0'.toNat)) 0

/-- The longest leading run of decimal digits, as a number; `none` when the
list does not start with a digit. -/
def leadingNat (cs : JStr) : Option ℕ :=
  let ds := cs.takeWhile isDigitC
  if ds.isEmpty then none else some (digitsToNat ds)

/-- JS `parseInt(s)` (radix 10): skip leading whitespace, read an optional
sign and then a maximal run of decimal digits; `none` models `NaN`.

Two float64 aspects of the real `parseInt` are outside this model, which
returns the exact unbounded integer instead: (a) JS produces a float64
value, exact only below `2^53` and saturating to `Infinity` beyond
roughly `1.8e308` (~309 digits), after which the source's dimension
pipeline yields `NaN`/`Infinity` dimensions (e.g. `"NaNx0"`); and (b) the
automatic `0x` radix detection.  Theorems that quantify over arbitrary
custom ratio strings are therefore restricted, via `decimalPartsSmall`,
to digit-run inputs inside the float64 exact-integer range, where the
exact model and the float64 source provably agree; concrete-input
theorems use only inputs in that shared regime. -/
def parseIntJS (s : JStr) : Option ℤ :=
  let t := s.dropWhile (fun c => c = ' ' || c = '\t' || c = '\n' || c = '\r')
  match t with
  | '-' :: rest => (leadingNat rest).map (fun n => -(n : ℤ))
  | '+' :: rest => (leadingNat rest).map (fun n => (n : ℤ))
  | rest => (leadingNat rest).map (fun n => (n : ℤ))

/-- Decimal rendering of a natural number (fuelled; fuel `n+1` suffices). -/
def natToJStrAux : ℕ → ℕ → JStr
  | 0, _ => []
  | fuel + 1, n =>
    if n < 10 then [Char.ofNat ('0'.toNat + n)]
    else natToJStrAux fuel (n / 10) ++ [Char.ofNat ('0'.toNat + n % 10)]

/-- Decimal rendering of a natural number as a `JStr`. -/
def natToJStr (n : ℕ) : JStr := natToJStrAux (n + 1) n

/-!
## Integer square roots

`Math.sqrt` in the source is modelled by the exact real square root.  The
only places its value is observed are (a) comparisons of products that are
exactly rational, and (b) `Math.round(x / 32)` where `x = √q` for a
rational `q`.  For (b) we need the round-half-up of `√(num/den)`, computed
exactly on naturals:

  round(√(num/den)) = ⌊√(num/den) + 1/2⌋ = ⌊(√(4·num·den) + den) / (2·den)⌋

using `⌊(x + c)/d⌋ = ⌊(⌊x⌋ + c)/d⌋` for real `x ≥ 0` and naturals `c, d`.
`sqrtFuel` is a fuelled copy of core `Nat.sqrt` (same Newton iteration,
same initial guess) that the kernel can evaluate; `sqrtFuel_eq_sqrt` proves
it equal to `Nat.sqrt`, so all Mathlib facts about `Nat.sqrt` apply.
-/

/-- One fuelled Newton iteration for the integer square root; identical to
`Nat.sqrt.iter` (with its `next` let-binding inlined) except for the
explicit fuel. -/
def sqrtIterF (n : ℕ) : ℕ → ℕ → ℕ
  | 0, g => g
  | fuel + 1, g =>
    if (g + n / g) / 2 < g then sqrtIterF n fuel ((g + n / g) / 2) else g

/-- Kernel-computable integer square root, mirroring core `Nat.sqrt`. -/
def sqrtFuel (n : ℕ) : ℕ :=
  if n ≤ 1 then n else sqrtIterF n n (n / 2)

theorem sqrtIterF_eq_iter (n : ℕ) :
    ∀ fuel g, g ≤ fuel → sqrtIterF n fuel g = Nat.sqrt.iter n g := by
  intro fuel
  induction fuel with
  | zero =>
    intro g hg
    have hg0 : g = 0 := Nat.le_zero.mp hg
    subst hg0
    unfold Nat.sqrt.iter
    simp [sqrtIterF]
  | succ fuel ih =>
    intro g hg
    rw [sqrtIterF]
    unfold Nat.sqrt.iter
    by_cases h : (g + n / g) / 2 < g
    · rw [if_pos h, dif_pos h]
      exact ih _ (Nat.le_of_lt_succ (Nat.lt_of_lt_of_le h hg))
    · rw [if_neg h, dif_neg h]

theorem sqrtFuel_eq_sqrt (n : ℕ) : sqrtFuel n = Nat.sqrt n := by
  unfold sqrtFuel Nat.sqrt
  by_cases h : n ≤ 1
  · simp [h]
  · simp only [h, if_false]
    exact sqrtIterF_eq_iter n n (n / 2) (Nat.div_le_self n 2)

/-- Exact round-half-up of `√(num/den)` for natural `num, den` (`den > 0`):
the value `Math.round(Math.sqrt(num/den))` would take in exact real
arithmetic. -/
def roundSqrtDiv (num den : ℕ) : ℕ :=
  (sqrtFuel (4 * num * den) + den) / (2 * den)

/-- Characterization of `roundSqrtDiv num den` as the round-half-up of the
real square root of `num / den`: writing `m` for the result,
`m - 1/2 ≤ √(num/den) < m + 1/2`, i.e. `(2m-1)²·den ≤ 4·num` (when `m ≥ 1`)
and `4·num < (2m+1)²·den`.  This justifies using `roundSqrtDiv` for the
source's `Math.round(Math.sqrt(q))` under exact real arithmetic. -/
theorem roundSqrtDiv_spec (num den : ℕ) (hden : 0 < den) :
    (1 ≤ roundSqrtDiv num den →
      (2 * (roundSqrtDiv num den : ℤ) - 1) ^ 2 * den ≤ 4 * num) ∧
    (4 * num : ℤ) < (2 * (roundSqrtDiv num den : ℤ) + 1) ^ 2 * den := by
  have hs := sqrtFuel_eq_sqrt (4 * num * den)
  have hmq : roundSqrtDiv num den = (Nat.sqrt (4 * num * den) + den) / (2 * den) := by
    unfold roundSqrtDiv
    rw [hs]
  set s : ℕ := Nat.sqrt (4 * num * den) with hsdef
  have h1 : (s : ℤ) ^ 2 ≤ 4 * num * den := by
    exact_mod_cast Nat.sqrt_le' (4 * num * den)
  have h2 : (4 * num * den : ℤ) < ((s : ℤ) + 1) ^ 2 := by
    have := Nat.lt_succ_sqrt' (4 * num * den)
    rw [Nat.succ_eq_add_one] at this
    exact_mod_cast this
  have hD : (0 : ℤ) < den := by exact_mod_cast hden
  set M : ℤ := (roundSqrtDiv num den : ℤ) with hMdef
  have hdm : M * (2 * den) ≤ (s : ℤ) + den := by
    have h : roundSqrtDiv num den * (2 * den) ≤ s + den := by
      rw [hmq]
      exact Nat.div_mul_le_self _ _
    rw [hMdef]
    exact_mod_cast h
  have hdm2 : (s : ℤ) + den < (M + 1) * (2 * den) := by
    have hgen : s + den < ((s + den) / (2 * den) + 1) * (2 * den) := by
      have hmod := Nat.div_add_mod (s + den) (2 * den)
      have hlt : (s + den) % (2 * den) < 2 * den := Nat.mod_lt _ (by omega)
      nlinarith [hmod, hlt]
    rw [hMdef, hmq]
    exact_mod_cast hgen
  constructor
  · intro hm1
    have hM1 : (1 : ℤ) ≤ M := by rw [hMdef]; exact_mod_cast hm1
    have hle : (2 * M - 1) * den ≤ (s : ℤ) := by nlinarith [hdm]
    have h0 : (0 : ℤ) ≤ (2 * M - 1) * den := by nlinarith [hM1, hD]
    have hs0 : (0 : ℤ) ≤ (s : ℤ) := by exact_mod_cast Nat.zero_le s
    have hsq : ((2 * M - 1) * den) ^ 2 ≤ (s : ℤ) ^ 2 := by
      apply pow_le_pow_left₀ h0 hle
    have hchain : (2 * M - 1) ^ 2 * den * den ≤ (4 * num) * den := by nlinarith [hsq, h1]
    exact le_of_mul_le_mul_right hchain hD
  · have hsucc : (s : ℤ) + 1 ≤ (2 * M + 1) * den := by nlinarith [hdm2]
    have hsq : ((s : ℤ) + 1) ^ 2 ≤ ((2 * M + 1) * den) ^ 2 := by
      apply pow_le_pow_left₀ (by positivity) hsucc
    have hchain : (4 * num) * den < (2 * M + 1) ^ 2 * den * den := by nlinarith [h2, hsq]
    exact lt_of_mul_lt_mul_right hchain (le_of_lt hD)

/-!
## Domain enumerations (`types.ts`)
-/

/-- `ModelType` from `types.ts`. -/
inductive ModelType
  | flash
  | pro
deriving DecidableEq

/-- The string value of a `ModelType` enum member. -/
def modelTypeVal : ModelType → JStr
  | .flash => "gemini-2.5-flash-image".data
  | .pro => "gemini-3-pro-image-preview".data

/-- `AspectRatio` from `types.ts`. -/
inductive AspectRatio
  | square
  | portrait
  | vertical
  | landscape
  | widescreen
  | ultrawide
  | ultratall
  | custom
deriving DecidableEq

/-- The string value of an `AspectRatio` enum member. -/
def aspectRatioVal : AspectRatio → JStr
  | .square => "1:1".data
  | .portrait => "3:4".data
  | .vertical => "9:16".data
  | .landscape => "4:3".data
  | .widescreen => "16:9".data
  | .ultrawide => "18:8".data
  | .ultratall => "8:18".data
  | .custom => "custom".data

/-- `ImageSize` from `types.ts`. -/
inductive ImageSize
  | k1
  | k2
  | k4
deriving DecidableEq

/-- The string value of an `ImageSize` enum member. -/
def imageSizeVal : ImageSize → JStr
  | .k1 => "1K".data
  | .k2 => "2K".data
  | .k4 => "4K".data

/-- `VolcengineModel` from `types.ts`. -/
inductive VolcengineModel
  | seeddream40
  | seeddream45
deriving DecidableEq

/-- `VolcengineResolution` from `types.ts`. -/
inductive VolcengineResolution
  | k2
  | k4
deriving DecidableEq

/-- One row of the `VOLCENGINE_ASPECT_RATIOS` table from `types.ts`:
`val`, `label` and `size` fields. -/
structure VolcengineRatioRow where
  val : AspectRatio
  label : JStr
  size : JStr
deriving DecidableEq

/-- The `VOLCENGINE_ASPECT_RATIOS` table from `types.ts`. -/
def VOLCENGINE_ASPECT_RATIOS : List VolcengineRatioRow :=
  [⟨.square, "1:1".data, "1024x1024".data⟩,
   ⟨.landscape, "4:3".data, "1152x864".data⟩,
   ⟨.portrait, "3:4".data, "864x1152".data⟩,
   ⟨.widescreen, "16:9".data, "1280x720".data⟩,
   ⟨.vertical, "9:16".data, "720x1280".data⟩,
   ⟨.ultrawide, "21:9".data, "1512x648".data⟩,
   ⟨.ultratall, "9:21".data, "648x1512".data⟩]

/-- `GenerationSettings` from `types.ts` (the current, Volcengine-enabled
revision).  `generatorType` is kept as the enum's runtime string value so
that the factory's `default` branch on unknown identifiers is expressible. -/
structure GenerationSettings where
  pptStyle : JStr
  colorScheme : JStr
  designRequirements : JStr
  referenceImage : Option JStr
  model : ModelType
  aspectRatio : AspectRatio
  customAspectRatio : Option JStr
  imageSize : ImageSize
  generatorType : JStr
  volcengineModel : VolcengineModel
  volcengineResolution : VolcengineResolution

/-- `ApiKeys` from `types.ts`.  A missing/empty credential is the empty
string (TS tests truthiness, so `""` and `undefined` behave alike). -/
structure ApiKeys where
  geminiApiKey : JStr
  volcengineAccessKey : JStr
  volcengineSecretKey : JStr
  volcengineEndpoint : Option JStr

/-!
## Volcengine dimension resolver
(`VolcengineGenerator.calculateSize`, `src/unnamed/part_001` lines 51-112)

Every float entering the rounding steps has the form `√q` for a rational
`q`, and the exact product `width * height` before rounding equals the
(clamped) pixel budget, so the two scaling conditionals compare exact
naturals.  Dimensions are therefore tracked as the pixel budget `pixels`
together with the target ratio `ra / rb`; the concrete float pipeline of
the source maps line by line onto this representation:
  `height = Math.sqrt(basePixels / targetRatio)`, `width = height * targetRatio`
    ⇒ `width = √(pixels·ra/rb)`, `height = √(pixels·rb/ra)`,
      `width * height = pixels` exactly;
  the `> MAX_PIXELS` rescale makes the product exactly `MAX_PIXELS`
    ⇒ `pixels := MAX_PIXELS` (ratio preserved);
  the `< MIN_PIXELS` rescale makes the product exactly `MIN_PIXELS`
    ⇒ `pixels := MIN_PIXELS` (ratio preserved);
  `Math.round(width / 32) * 32` ⇒ `32 * roundSqrtDiv (pixels*ra) (1024*rb)`
    since `width / 32 = √(pixels·ra/(1024·rb))` exactly.
-/

/-- `MAX_PIXELS` from `calculateSize`. -/
def MAX_PIXELS : ℕ := 16777216

/-- `MIN_PIXELS` from `calculateSize`. -/
def MIN_PIXELS : ℕ := 921600

/-- `RESOLUTION_BASE_SIZE` from `volcengineGenerator`. -/
def RESOLUTION_BASE_SIZE : VolcengineResolution → ℕ × ℕ
  | .k2 => (2048, 2048)
  | .k4 => (4096, 4096)

/-- The target-ratio computation of `calculateSize` (lines 62-78): a pair
`(ra, rb)` standing for the ratio `ra / rb`, defaulting to `1` (= `(1,1)`).
The `parseInt` results of the fixed table rows always exist; the `(1, 1)`
fallbacks on its unreachable `NaN` branches are never taken. -/
def targetRatioOf (aspectRatio : AspectRatio) (customRatio : Option JStr) : ℕ × ℕ :=
  let ratioConfig := VOLCENGINE_ASPECT_RATIOS.find? (fun r => r.val = aspectRatio)
  if aspectRatio = .custom ∧ (customRatio.getD []) ≠ [] then
    let parts := splitOnC ':' (customRatio.getD [])
    if parts.length = 2 then
      match parseIntJS (parts.getD 0 []), parseIntJS (parts.getD 1 []) with
      | some w, some h => if 0 < w ∧ 0 < h then (w.toNat, h.toNat) else (1, 1)
      | _, _ => (1, 1)
    else (1, 1)
  else
    match ratioConfig with
    | some cfg =>
      let parts := splitOnC 'x' cfg.size
      if parts.length = 2 then
        match parseIntJS (parts.getD 0 []), parseIntJS (parts.getD 1 []) with
        | some w, some h => (w.toNat, h.toNat)
        | _, _ => (1, 1)
      else (1, 1)
    | none => (1, 1)

/-- The trailing `while (width * height > MAX_PIXELS && width > 32 && height > 32)`
loop of `calculateSize`, with explicit fuel; each pass subtracts `32` from
the larger dimension, so fuel `width + height` always reaches the loop's
own exit condition first. -/
def shrinkLoop : ℕ → ℕ → ℕ → ℕ × ℕ
  | 0, w, h => (w, h)
  | fuel + 1, w, h =>
    if w * h > MAX_PIXELS ∧ w > 32 ∧ h > 32 then
      if w ≥ h then shrinkLoop fuel (w - 32) h else shrinkLoop fuel w (h - 32)
    else (w, h)

/-- `VolcengineGenerator.calculateSize` (exact-real model of the float
pipeline; returns the `(width, height)` pair that the source formats as
`"WxH"`).

Validity domain: the exact-real reading covers the float64 pipeline's
finite regime.  When a custom ratio part is long enough for `parseInt` to
saturate to `Infinity` (~309 digits), or the parsed ratio is so extreme
that `basePixels / targetRatio` overflows, the source instead propagates
`NaN`/`Infinity` into the formatted size (e.g. `"NaNx0"`); this model has
no such values, so universally quantified theorems about custom ratio
strings carry a `decimalPartsSmall` hypothesis restricting them to the
regime where the two semantics agree. -/
def calculateSize (resolution : VolcengineResolution) (aspectRatio : AspectRatio)
    (customRatio : Option JStr) : ℕ × ℕ :=
  let base := RESOLUTION_BASE_SIZE resolution
  let basePixels := base.1 * base.2
  let basePixels := if basePixels > MAX_PIXELS then MAX_PIXELS else basePixels
  let r := targetRatioOf aspectRatio customRatio
  -- width = √(basePixels·ra/rb), height = √(basePixels·rb/ra);
  -- currentPixels = width * height = basePixels exactly:
  let pixels := if basePixels > MAX_PIXELS then MAX_PIXELS else basePixels
  let pixels := if pixels < MIN_PIXELS then MIN_PIXELS else pixels
  let width := 32 * roundSqrtDiv (pixels * r.1) (1024 * r.2)
  let height := 32 * roundSqrtDiv (pixels * r.2) (1024 * r.1)
  shrinkLoop (width + height) width height

/-!
## Stability dimension table
(`StabilityGenerator.getDimensionsFromAspectRatio`,
`src/services/generators/stabilityGenerator.ts` lines 170-211)
-/

/-- Exact round-half-up of the rational `a / b` (`Math.round(a / b)` for
natural `a, b` in exact arithmetic). -/
def roundDiv (a b : ℕ) : ℕ := (2 * a + b) / (2 * b)

/-- The `ratioMap` lookup at the end of `getDimensionsFromAspectRatio`;
`custom` is not a key, so it falls to the `{1920, 1080}` default. -/
def stabilityRatioMap : AspectRatio → ℕ × ℕ
  | .square => (1024, 1024)
  | .portrait => (1024, 1365)
  | .vertical => (1024, 1792)
  | .landscape => (1365, 1024)
  | .widescreen => (1920, 1080)
  | .ultrawide => (2560, 1080)
  | .ultratall => (1080, 2560)
  | .custom => (1920, 1080)

/-- `StabilityGenerator.getDimensionsFromAspectRatio`. -/
def getDimensionsFromAspectRatio (aspectRatio : AspectRatio)
    (customAspectRatio : Option JStr) : ℕ × ℕ :=
  let baseWidth := 1920
  let baseHeight := 1080
  if aspectRatio = .custom ∧ (customAspectRatio.getD []) ≠ [] then
    let parts := splitOnC ':' (customAspectRatio.getD [])
    if parts.length = 2 then
      match parseIntJS (parts.getD 0 []), parseIntJS (parts.getD 1 []) with
      | some w, some h =>
        if 0 < w ∧ 0 < h then
          if w > h then (baseWidth, roundDiv (baseWidth * h.toNat) w.toNat)
          else (roundDiv (baseHeight * w.toNat) h.toNat, baseHeight)
        else stabilityRatioMap aspectRatio
      | _, _ => stabilityRatioMap aspectRatio
    else stabilityRatioMap aspectRatio
  else stabilityRatioMap aspectRatio

/-!
## Error model and per-adapter retry loops

Network effects are abstracted by an outcome oracle: `outcomes k` is the
result the `k`-th invocation of the underlying single-image call would
produce (success payload or thrown error).  A thrown JS error is modelled
by its `status`/`code` field (already coalesced, as in
`const status = error.status || error.code`) and its `message` string.
-/

/-- A thrown provider error: coalesced numeric status and message text. -/
structure JsError where
  status : Option ℕ
  message : JStr
deriving DecidableEq

/-- The transient-failure test of `GeminiGenerator.generateImage`
(`geminiGenerator.ts` lines 131-133): `isOverloaded || isInternal`. -/
def geminiIsRetryable (e : JsError) : Bool :=
  let isOverloaded := e.status == some 503 || containsL e.message "overloaded".data
    || containsL e.message "UNAVAILABLE".data
  let isInternal := e.status == some 500 || containsL e.message "Internal Server Error".data
  isOverloaded || isInternal

/-- The transient-failure test of `StabilityGenerator.generateImage`
(`stabilityGenerator.ts` lines 119-122): message substrings only. -/
def stabilityIsRetryable (e : JsError) : Bool :=
  containsL e.message "rate limit".data || containsL e.message "overloaded".data
    || containsL e.message "503".data || containsL e.message "500".data

/-- Equality of `Except` results is decidable componentwise. -/
instance {α β : Type} [DecidableEq α] [DecidableEq β] : DecidableEq (Except α β)
  | .error a, .error b => decidable_of_iff (a = b) (by simp)
  | .ok a, .ok b => decidable_of_iff (a = b) (by simp)
  | .error _, .ok _ => isFalse (by simp)
  | .ok _, .error _ => isFalse (by simp)

/-- Observable run of a retry loop: final result, number of invocations of
the underlying call, and the list of backoff delays slept (in seconds; the
source multiplies by 1000 for milliseconds). -/
structure RetryRun where
  result : Except JsError JStr
  calls : ℕ
  delays : List ℕ
deriving DecidableEq

/-- The `for (let attempt = 0; attempt < retries; attempt++)` body shared
verbatim by the Gemini and Stability adapters (`retries = 3`): on success
return; on error record it, and if attempts remain and the failure is
classified transient, sleep `2^(attempt+1)` seconds and continue, else
break and rethrow the recorded error.  Fuel equals remaining attempts, so
with fuel `3 - attempt` it never runs out before the loop's own bound. -/
def retryFrom (classify : JsError → Bool) (outcomes : ℕ → Except JsError JStr) :
    ℕ → ℕ → RetryRun
  | 0, _ => ⟨.error ⟨none, []⟩, 0, []⟩
  | fuel + 1, attempt =>
    match outcomes attempt with
    | .ok r => ⟨.ok r, 1, []⟩
    | .error e =>
      if attempt < 3 - 1 ∧ classify e then
        let rest := retryFrom classify outcomes fuel (attempt + 1)
        ⟨rest.result, rest.calls + 1, 2 ^ (attempt + 1) :: rest.delays⟩
      else ⟨.error e, 1, []⟩

/-- The whole retry loop: three attempts starting at attempt `0`. -/
def withRetry (classify : JsError → Bool) (outcomes : ℕ → Except JsError JStr) : RetryRun :=
  retryFrom classify outcomes 3 0

/-- `GeminiGenerator.generateImage` at the level of its retry behavior. -/
def geminiGenerateImage (outcomes : ℕ → Except JsError JStr) : RetryRun :=
  withRetry geminiIsRetryable outcomes

/-- `StabilityGenerator.generateImage`: the up-front `this.apiKey` check
(throwing before any attempt) followed by the retry loop. -/
def stabilityGenerateImage (apiKey : JStr) (outcomes : ℕ → Except JsError JStr) : RetryRun :=
  if apiKey = [] then
    ⟨.error ⟨none, "Stability AI API key is not set".data⟩, 0, []⟩
  else withRetry stabilityIsRetryable outcomes

/-- `VolcengineGenerator.generateImage` (`part_001` lines 114-201) at the
level of its attempt structure: the up-front `this.apiKey` check, then a
single request with no retry loop at all. -/
def volcengineGenerateImage (apiKey : JStr) (outcome : Except JsError JStr) : RetryRun :=
  if apiKey = [] then
    ⟨.error ⟨none, "火山方舟 API Key 未设置，请在设置中填写".data⟩, 0, []⟩
  else ⟨outcome, 1, []⟩

/-!
## Variation fan-out

`VolcengineGenerator.generateVariations` runs its `count` attempts in a
sequential `for` loop, pushing successes into `results` and caught error
messages into `errors`, then fails with `errors[0]` only when `results` is
empty.  The Gemini and Stability (and DALL-E) adapters instead build
`count` staggered promises and `await Promise.all(promises)`, which rejects
as soon as any promise rejects; completion order is abstracted here by
surfacing the lowest-indexed failure.  At the fan-out level an attempt's
outcome is its resolved base64 payload or its rejection message string.
-/

/-- The body of `VolcengineGenerator.generateVariations`' `for` loop,
started at attempt index `i` with `k` attempts left; returns the
`(results, errors)` accumulators in push order. -/
def volcLoop (outcomes : ℕ → Except JStr JStr) : ℕ → ℕ → List JStr × List JStr
  | _, 0 => ([], [])
  | i, k + 1 =>
    let rest := volcLoop outcomes (i + 1) k
    match outcomes i with
    | .ok r => (r :: rest.1, rest.2)
    | .error e => (rest.1, e :: rest.2)

/-- `VolcengineGenerator.generateVariations` (`part_001` lines 203-233). -/
def volcengineGenerateVariations (outcomes : ℕ → Except JStr JStr) (count : ℕ) :
    Except JStr (List JStr) :=
  let acc := volcLoop outcomes 0 count
  if acc.1 = [] then
    match acc.2 with
    | e :: _ => .error e
    | [] => .error "图像生成失败".data
  else .ok acc.1

/-- `await Promise.all` over the staggered attempt promises, as used by
`GeminiGenerator.generateVariations` and
`StabilityGenerator.generateVariations`: succeeds with all payloads in
launch order iff every attempt succeeds, otherwise rejects with a failed
attempt's error (the lowest-indexed failure in this deterministic model). -/
def promiseAllFrom (outcomes : ℕ → Except JStr JStr) : ℕ → ℕ → Except JStr (List JStr)
  | _, 0 => .ok []
  | i, k + 1 =>
    match outcomes i with
    | .error e => .error e
    | .ok r =>
      match promiseAllFrom outcomes (i + 1) k with
      | .error e => .error e
      | .ok rs => .ok (r :: rs)

/-- `GeminiGenerator.generateVariations` / `StabilityGenerator.generateVariations`
aggregate semantics. -/
def promiseAllVariations (outcomes : ℕ → Except JStr JStr) (count : ℕ) :
    Except JStr (List JStr) :=
  promiseAllFrom outcomes 0 count

/-!
## Provider factory
(`ImageGeneratorFactory.createGenerator`, `src/services/imageGeneratorFactory.ts`)

The provider identifier is the enum's runtime string value, so that the
`default` switch branch on identifiers outside the known set is
expressible.  The factory performs no network activity: it only tests
credential presence and constructs an adapter value.
-/

/-- A constructed provider adapter, holding exactly the constructor
arguments the factory passes. -/
inductive Generator
  | gemini (ctorApiKey : JStr)
  | volcengine (accessKey : JStr) (secretKey : JStr) (endpoint : Option JStr)
deriving DecidableEq

/-- `ImageGeneratorFactory.createGenerator(type, apiKeys)`. -/
def createGenerator (type : JStr) (apiKeys : ApiKeys) : Except JStr Generator :=
  if type = "gemini".data then
    if apiKeys.geminiApiKey = [] then .error "请在设置中填写 Gemini API Key".data
    else .ok (.gemini apiKeys.geminiApiKey)
  else if type = "volcengine".data then
    if apiKeys.volcengineSecretKey = [] then .error "请在设置中填写火山方舟 API Key".data
    else .ok (.volcengine [] apiKeys.volcengineSecretKey apiKeys.volcengineEndpoint)
  else
    if apiKeys.geminiApiKey = [] then .error "请在设置中填写 Gemini API Key".data
    else .ok (.gemini apiKeys.geminiApiKey)

/-!
## Gemini request construction
(`GeminiGenerator`, `src/services/generators/geminiGenerator.ts`)

The class declares no constructor and stores no credential field; the
argument the factory passes to `new GeminiGenerator(apiKeys.geminiApiKey)`
is discarded, and `getClient()` (lines 32-35) builds the client from
`process.env.API_KEY` on each call.  The request actually issued is a
deterministic function of the ambient environment key and the generation
inputs, captured by `GeminiRequest`.
-/

/-- JS truthiness of an optional string (`null`/`undefined` and `""` are
falsy). -/
def jsTruthy (o : Option JStr) : Bool := (o.getD []) ≠ []

/-- JS `a || b` for strings: `b` when `a` is falsy (empty). -/
def jsOr (s dflt : JStr) : JStr := if s = [] then dflt else s

/-- `getMimeType` from `geminiGenerator.ts`: base64-signature sniffing. -/
def getMimeType (base64 : JStr) : JStr :=
  if startsWithL base64 "/9j/".data then "image/jpeg".data
  else if startsWithL base64 "iVBORw0KGgo".data then "image/png".data
  else if startsWithL base64 "R0lGOD".data then "image/gif".data
  else if startsWithL base64 "UklGR".data then "image/webp".data
  else "image/png".data

/-- One entry of the `parts` array sent to the Gemini API. -/
inductive GeminiPart
  | inlineData (mimeType : JStr) (payload : JStr)
  | text (content : JStr)
deriving DecidableEq

/-- The `config.imageConfig` object of the Gemini request. -/
structure GeminiImageConfig where
  aspectRatio : JStr
  imageSize : Option JStr
deriving DecidableEq

/-- The observable Gemini request: the API key the client was constructed
with, the model name, the `parts` array, and the image config. -/
structure GeminiRequest where
  clientApiKey : Option JStr
  model : JStr
  parts : List GeminiPart
  config : GeminiImageConfig
deriving DecidableEq

/-- The `fullPrompt` string built by `GeminiGenerator.generateImage`
(lines 69-93), with each `${x || 'default'}` interpolation modelled by
`jsOr`. -/
def geminiFullPrompt (settings : GenerationSettings) (slideContent : JStr)
    (slideImage : Option JStr) : JStr :=
  let base := "设计一张专业的PPT幻灯片页面。\n\n【设计规范】\n- 风格流派: ".data
    ++ jsOr settings.pptStyle "现代极简商务".data
    ++ "\n- 配色方案: ".data
    ++ jsOr settings.colorScheme "专业深蓝与白色搭配".data
    ++ "\n- 具体设计要求: ".data
    ++ jsOr settings.designRequirements "排版整洁，重点突出，层级分明".data
    ++ "\n\n【本页内容】\n- 核心内容: ".data
    ++ jsOr slideContent "标题页，展示主要议题".data
  let base := if jsTruthy settings.referenceImage then
      base ++ "\n\n【参考说明】\n请严格参考提供的第一张图片的视觉风格、配色和布局感。".data
    else base
  let base := if jsTruthy slideImage then
      base ++ "\n\n【内容优化说明】\n请基于提供的具体内容图片（图表/截图/草图）进行专业化重绘和排版优化，保留关键信息。".data
    else base
  base ++ "\n\n请严格遵循上述风格与配色，输出一张高品质、无乱码的幻灯片设计图。".data

/-- The request `GeminiGenerator.generateImage` issues, as a function of
the ambient `process.env.API_KEY` and the generation inputs (lines 44-121;
images first, then the text part; aspect ratio overridden by a truthy
custom ratio; `imageSize` attached only for the PRO model). -/
def geminiBuildRequest (envApiKey : Option JStr) (settings : GenerationSettings)
    (slideContent : JStr) (slideImage : Option JStr) : GeminiRequest :=
  let parts :=
    (if jsTruthy settings.referenceImage then
        [GeminiPart.inlineData (getMimeType (settings.referenceImage.getD []))
          (settings.referenceImage.getD [])]
      else [])
    ++ (if jsTruthy slideImage then
        [GeminiPart.inlineData (getMimeType (slideImage.getD [])) (slideImage.getD [])]
      else [])
    ++ [GeminiPart.text (geminiFullPrompt settings slideContent slideImage)]
  let finalAspectRatio :=
    if settings.aspectRatio = .custom ∧ jsTruthy settings.customAspectRatio then
      settings.customAspectRatio.getD []
    else aspectRatioVal settings.aspectRatio
  { clientApiKey := envApiKey
    model := modelTypeVal settings.model
    parts := parts
    config :=
      { aspectRatio := finalAspectRatio
        imageSize :=
          if settings.model = .pro then some (imageSizeVal settings.imageSize) else none } }

/-- The request issued by a `GeminiGenerator` instance constructed with
`ctorApiKey`: the constructor argument is discarded (the class declares no
constructor), so the result depends only on the environment key and the
inputs. -/
def geminiIssuedRequest (_ctorApiKey : JStr) (envApiKey : Option JStr)
    (settings : GenerationSettings) (slideContent : JStr) (slideImage : Option JStr) :
    GeminiRequest :=
  geminiBuildRequest envApiKey settings slideContent slideImage

/-!
## Batch sequencer
(`App.tsx` = `src/unnamed/part_000`: `generateSlide` lines 118-151,
`handleBatchGenerate` lines 153-161)

The factory call plus `generateVariations` inside `generateSlide`'s `try`
block is abstracted by an outcome oracle keyed by slide id.  Each
`updateSlide` call that changes a status is recorded as an event
`(id, new status)`, giving the observable transition trace of a batch run.
The `isBatchGenerating` flag is UI state and not modelled.
-/

/-- The `status` field of `SlideData` from `types.ts`. -/
inductive SlideStatus
  | idle
  | generating
  | success
  | error
deriving DecidableEq

/-- `SlideData` from `types.ts`. -/
structure SlideData where
  id : JStr
  contentPrompt : JStr
  contentImage : Option JStr
  generatedImages : List JStr
  variantCount : ℕ
  status : SlideStatus
  errorMessage : Option JStr

/-- A recorded status transition of one slide. -/
abbrev BatchEvent := JStr × SlideStatus

/-- `updateSlide(id, updates)`: map the update over the slide list,
touching only slides with the given id. -/
def updateSlideWith (slides : List SlideData) (id : JStr) (f : SlideData → SlideData) :
    List SlideData :=
  slides.map (fun s => if s.id = id then f s else s)

/-- The error message recorded by `generateSlide`'s `catch` block
(lines 138-149): credential-sounding failures get a detailed hint that
depends on whether the Volcengine key is filled in; other failures keep
`error.message`, defaulting to `"生成失败"`. -/
def generateSlideErrorMessage (apiKeys : ApiKeys) (msg : JStr) : JStr :=
  if containsL msg "API key".data || containsL msg "Key".data
      || containsL msg "未设置".data then
    if apiKeys.volcengineSecretKey ≠ [] then
      "API Key已填写，长度: ".data ++ natToJStr apiKeys.volcengineSecretKey.length
        ++ "，但仍提示错误: ".data ++ msg
    else "请在设置中填写火山方舟 API Key".data
  else jsOr msg "生成失败".data

/-- `generateSlide(id)`: look the slide up (return silently when absent),
mark it `generating`, run the generation, and settle it to `success` with
the produced images or to `error` with the computed message.  Returns the
updated slide list and the recorded status transitions. -/
def generateSlide (outcome : JStr → Except JStr (List JStr)) (apiKeys : ApiKeys)
    (slides : List SlideData) (id : JStr) : List SlideData × List BatchEvent :=
  match slides.find? (fun s => s.id = id) with
  | none => (slides, [])
  | some _ =>
    let slides1 := updateSlideWith slides id
      (fun s => { s with status := .generating, errorMessage := none })
    match outcome id with
    | .ok images =>
      (updateSlideWith slides1 id
          (fun s => { s with status := .success, generatedImages := images }),
        [(id, .generating), (id, .success)])
    | .error msg =>
      (updateSlideWith slides1 id
          (fun s =>
            { s with status := SlideStatus.error
                     errorMessage := some (generateSlideErrorMessage apiKeys msg) }),
        [(id, .generating), (id, .error)])

/-- The target selection of `handleBatchGenerate`:
`slides.filter(s => s.generatedImages.length === 0 || s.status === 'error' || s.status === 'idle')`. -/
def batchTargets (slides : List SlideData) : List SlideData :=
  slides.filter (fun s => s.generatedImages = [] || s.status == .error || s.status == .idle)

/-- The sequential `for (const slide of targets) await generateSlide(slide.id)`
loop: each slide's generation fully settles (and its events are emitted)
before the next one starts. -/
def processTargets (outcome : JStr → Except JStr (List JStr)) (apiKeys : ApiKeys) :
    List SlideData → List SlideData → List SlideData × List BatchEvent
  | [], slides => (slides, [])
  | t :: ts, slides =>
    let step := generateSlide outcome apiKeys slides t.id
    let rest := processTargets outcome apiKeys ts step.1
    (rest.1, step.2 ++ rest.2)

/-- `handleBatchGenerate`: select the targets once, then process them
sequentially. -/
def handleBatchGenerate (outcome : JStr → Except JStr (List JStr)) (apiKeys : ApiKeys)
    (slides : List SlideData) : List SlideData × List BatchEvent :=
  processTargets outcome apiKeys (batchTargets slides) slides

/-- The terminal status a processed job settles to, by outcome. -/
def settleStatus : Except JStr (List JStr) → SlideStatus
  | .ok _ => .success
  | .error _ => .error

/-!
## Theorems

### Retry policy (claims C2, C3)
-/

/-- Closed form of the three-attempt retry loop, by case analysis on the
first three outcomes. -/
theorem withRetry_eq (classify : JsError → Bool) (outcomes : ℕ → Except JsError JStr) :
    withRetry classify outcomes =
      match outcomes 0 with
      | .ok r => ⟨.ok r, 1, []⟩
      | .error e0 =>
        if classify e0 then
          match outcomes 1 with
          | .ok r => ⟨.ok r, 2, [2]⟩
          | .error e1 =>
            if classify e1 then
              match outcomes 2 with
              | .ok r => ⟨.ok r, 3, [2, 4]⟩
              | .error e2 => ⟨.error e2, 3, [2, 4]⟩
            else ⟨.error e1, 2, [2]⟩
        else ⟨.error e0, 1, []⟩ := by
  cases h0 : outcomes 0 with
  | error e0 =>
    by_cases hc0 : classify e0
    · cases h1 : outcomes 1 with
      | error e1 =>
        by_cases hc1 : classify e1
        · cases h2 : outcomes 2 <;>
            simp [withRetry, retryFrom, h0, h1, h2, hc0, hc1]
        · simp [withRetry, retryFrom, h0, h1, hc0, hc1]
      | ok r => simp [withRetry, retryFrom, h0, h1, hc0]
    · simp [withRetry, retryFrom, h0, hc0]
  | ok r => simp [withRetry, retryFrom, h0]

/-- C3: the shared single-image retry policy of the Gemini and Stability
adapters: the underlying call is invoked at most 3 times; the delay before
(0-indexed) retry `k` is `2^(k+1)` seconds; a first failure classified
permanent is rethrown after exactly one invocation; a transient first
failure is retried; and when all three attempts fail (the first two
transient), the last observed error is rethrown after exactly 3 invocations
with delays 2 s and 4 s. -/
theorem retry_policy_bounded_backoff_lastError (classify : JsError → Bool)
    (outcomes : ℕ → Except JsError JStr) :
    (withRetry classify outcomes).calls ≤ 3 ∧
    (withRetry classify outcomes).delays =
      (List.range ((withRetry classify outcomes).calls - 1)).map (fun k => 2 ^ (k + 1)) ∧
    (∀ e, outcomes 0 = .error e → classify e = false →
      (withRetry classify outcomes).result = .error e ∧
        (withRetry classify outcomes).calls = 1) ∧
    (∀ e, outcomes 0 = .error e → classify e = true →
      2 ≤ (withRetry classify outcomes).calls) ∧
    (∀ e0 e1 e2, outcomes 0 = .error e0 → classify e0 = true →
      outcomes 1 = .error e1 → classify e1 = true → outcomes 2 = .error e2 →
      (withRetry classify outcomes).result = .error e2 ∧
        (withRetry classify outcomes).calls = 3 ∧
        (withRetry classify outcomes).delays = [2, 4]) := by
  rw [withRetry_eq]
  cases h0 : outcomes 0 with
  | error e0 =>
    by_cases hc0 : classify e0
    · cases h1 : outcomes 1 with
      | error e1 =>
        by_cases hc1 : classify e1
        · cases h2 : outcomes 2 <;>
            simp [h0, h1, h2, hc0, hc1, List.range_succ]
        · simp [h0, h1, hc0, hc1, List.range_succ]
          intro a b c _ _ hb hcb
          subst hb
          exact absurd hcb hc1
      | ok r => simp [h0, h1, hc0, List.range_succ]
    · simp [h0, hc0]
      intro a b c ha hca
      subst ha
      exact absurd hca hc0
  | ok r => simp [h0]

/-- Witness for C3: a run whose first two failures are transient
(`"overloaded"`, classified by the Gemini classifier) and whose third
fails permanently: exactly 3 calls, delays `[2, 4]`, last error surfaced. -/
theorem retry_policy_bounded_backoff_lastError_witness :
    (withRetry geminiIsRetryable
        (fun k => if k < 2 then .error ⟨none, "overloaded".data⟩
          else .error ⟨some 400, "Bad Request".data⟩)).result =
        .error ⟨some 400, "Bad Request".data⟩ ∧
    (withRetry geminiIsRetryable
        (fun k => if k < 2 then .error ⟨none, "overloaded".data⟩
          else .error ⟨some 400, "Bad Request".data⟩)).calls = 3 ∧
    (withRetry geminiIsRetryable
        (fun k => if k < 2 then .error ⟨none, "overloaded".data⟩
          else .error ⟨some 400, "Bad Request".data⟩)).delays = [2, 4] :=
  (retry_policy_bounded_backoff_lastError geminiIsRetryable
      (fun k => if k < 2 then .error ⟨none, "overloaded".data⟩
        else .error ⟨some 400, "Bad Request".data⟩)).2.2.2.2
    ⟨none, "overloaded".data⟩ ⟨none, "overloaded".data⟩ ⟨some 400, "Bad Request".data⟩
    (by decide) (by decide) (by decide) (by decide) (by decide)

/-- C2 counterexample: the per-adapter retry behaviors are not identical.
On the same failure (message `"rate limit"`, no status) the Stability
adapter classifies transient and retries to 3 calls while the Gemini
adapter classifies permanent and stops after 1 call; the Volcengine
adapter never retries at all. -/
theorem retry_classification_differs_counterexample :
    geminiIsRetryable ⟨none, "rate limit".data⟩ = false ∧
    stabilityIsRetryable ⟨none, "rate limit".data⟩ = true ∧
    (geminiGenerateImage (fun _ => .error ⟨none, "rate limit".data⟩)).calls = 1 ∧
    (stabilityGenerateImage "k".data (fun _ => .error ⟨none, "rate limit".data⟩)).calls = 3 ∧
    (volcengineGenerateImage "k".data (.error ⟨none, "rate limit".data⟩)).calls = 1 := by
  decide

/-- C2 amended: the Gemini and Stability adapters reproduce the same
three-attempt loop (`withRetry`) differing only in their transient
classifiers, which genuinely differ (`"rate limit"` is transient only for
Stability); the Volcengine adapter instead performs exactly one attempt
with no retry. -/
theorem per_adapter_retry_structure :
    (∀ outcomes, geminiGenerateImage outcomes = withRetry geminiIsRetryable outcomes) ∧
    (∀ apiKey outcomes, apiKey ≠ [] →
      stabilityGenerateImage apiKey outcomes = withRetry stabilityIsRetryable outcomes) ∧
    geminiIsRetryable ⟨none, "rate limit".data⟩ ≠ stabilityIsRetryable ⟨none, "rate limit".data⟩ ∧
    (∀ apiKey outcome, apiKey ≠ [] →
      volcengineGenerateImage apiKey outcome = ⟨outcome, 1, []⟩) := by
  refine ⟨fun _ => rfl, fun apiKey outcomes hk => ?_, by decide, fun apiKey outcome hk => ?_⟩
  · simp [stabilityGenerateImage, hk]
  · simp [volcengineGenerateImage, hk]

/-- Witness for the amended C2 statement at concrete keys and outcomes. -/
theorem per_adapter_retry_structure_witness :
    stabilityGenerateImage "k".data (fun _ => .ok "img".data) =
      withRetry stabilityIsRetryable (fun _ => .ok "img".data) ∧
    volcengineGenerateImage "k".data (.ok "img".data) = ⟨.ok "img".data, 1, []⟩ :=
  ⟨per_adapter_retry_structure.2.1 "k".data (fun _ => .ok "img".data) (by decide),
   per_adapter_retry_structure.2.2.2 "k".data (.ok "img".data) (by decide)⟩

/-!
### Variation fan-out (claim C1)
-/

theorem volcLoop_results_nil_iff (outcomes : ℕ → Except JStr JStr) :
    ∀ k i, (volcLoop outcomes i k).1 = [] ↔ ∀ j, j < k → ∃ e, outcomes (i + j) = .error e := by
  intro k
  induction k with
  | zero => intro i; simp [volcLoop]
  | succ k ih =>
    intro i
    cases h : outcomes i with
    | ok r =>
      simp only [volcLoop, h]
      constructor
      · intro hnil
        exact absurd hnil (by simp)
      · intro hall
        rcases hall 0 (Nat.succ_pos k) with ⟨e, he⟩
        rw [Nat.add_zero] at he
        rw [h] at he
        exact absurd he (by simp)
    | error e =>
      simp only [volcLoop, h]
      rw [ih (i + 1)]
      constructor
      · intro hall j hj
        cases j with
        | zero => exact ⟨e, by simpa using h⟩
        | succ j =>
          rcases hall j (Nat.lt_of_succ_lt_succ hj) with ⟨e', he'⟩
          exact ⟨e', by rw [← he']; ring_nf⟩
      · intro hall j hj
        rcases hall (j + 1) (Nat.succ_lt_succ hj) with ⟨e', he'⟩
        exact ⟨e', by rw [← he']; ring_nf⟩

theorem volcLoop_errors_first (outcomes : ℕ → Except JStr JStr) (k i : ℕ) (e : JStr)
    (hk : 0 < k) (h : outcomes i = .error e) :
    ∃ es, (volcLoop outcomes i k).2 = e :: es := by
  cases k with
  | zero => exact absurd hk (by simp)
  | succ k =>
    refine ⟨(volcLoop outcomes (i + 1) k).2, ?_⟩
    simp only [volcLoop, h]

theorem promiseAllFrom_all_ok (outcomes : ℕ → Except JStr JStr) :
    ∀ k i, (∀ j, j < k → ∃ r, outcomes (i + j) = .ok r) →
      ∃ rs, promiseAllFrom outcomes i k = .ok rs ∧ rs.length = k := by
  intro k
  induction k with
  | zero => intro i _; exact ⟨[], rfl, rfl⟩
  | succ k ih =>
    intro i hall
    rcases hall 0 (Nat.succ_pos k) with ⟨r, hr⟩
    rw [Nat.add_zero] at hr
    rcases ih (i + 1) (fun j hj => by
      rcases hall (j + 1) (Nat.succ_lt_succ hj) with ⟨r', hr'⟩
      exact ⟨r', by rw [← hr']; ring_nf⟩) with ⟨rs, hrs, hlen⟩
    refine ⟨r :: rs, ?_, by simp [hlen]⟩
    simp only [promiseAllFrom, hr, hrs]

theorem promiseAllFrom_err (outcomes : ℕ → Except JStr JStr) :
    ∀ k i j, j < k → ∀ e, outcomes (i + j) = .error e →
      ∃ e2, promiseAllFrom outcomes i k = .error e2 := by
  intro k
  induction k with
  | zero => intro i j hj; exact absurd hj (by simp)
  | succ k ih =>
    intro i j hj e he
    cases h0 : outcomes i with
    | error e0 => exact ⟨e0, by simp only [promiseAllFrom, h0]⟩
    | ok r =>
      cases j with
      | zero =>
        rw [Nat.add_zero] at he
        rw [h0] at he
        exact absurd he (by simp)
      | succ j =>
        rcases ih (i + 1) j (Nat.lt_of_succ_lt_succ hj) e
            (by rw [← he]; ring_nf) with ⟨e2, he2⟩
        refine ⟨e2, ?_⟩
        simp only [promiseAllFrom, h0, he2]

/-- C1 counterexample: with `count = 2` where attempt `0` fails and attempt
`1` succeeds, the `Promise.all`-based fan-out of the Gemini and Stability
adapters fails even though one attempt succeeded — the aggregate is *not*
"success iff at least one attempt succeeds" for those adapters. -/
theorem promiseAll_fanout_counterexample :
    promiseAllVariations
        (fun i => if i = 0 then .error "E".data else .ok "img".data) 2 =
      .error "E".data ∧
    (fun i => if i = 0 then (.error "E".data : Except JStr JStr) else .ok "img".data) 1 =
      .ok "img".data := by
  decide

/-- C1 amended: the stated aggregate semantics (success iff some attempt
succeeds, first recorded error when all fail) holds for the Volcengine
adapter's sequential fan-out, but the Gemini/Stability `Promise.all`
fan-out succeeds only when *all* attempts succeed and fails as soon as any
attempt fails. -/
theorem fanout_aggregate_semantics (outcomes : ℕ → Except JStr JStr) (count : ℕ)
    (hcount : 1 ≤ count) :
    ((∃ j, j < count ∧ ∃ r, outcomes j = .ok r) ↔
      ∃ rs, volcengineGenerateVariations outcomes count = .ok rs ∧ rs ≠ []) ∧
    ((∀ j, j < count → ∃ e, outcomes j = .error e) →
      ∀ e, outcomes 0 = .error e → volcengineGenerateVariations outcomes count = .error e) ∧
    ((∀ j, j < count → ∃ r, outcomes j = .ok r) →
      ∃ rs, promiseAllVariations outcomes count = .ok rs ∧ rs ≠ []) ∧
    (∀ j, j < count → ∀ e, outcomes j = .error e →
      ∃ e2, promiseAllVariations outcomes count = .error e2) := by
  refine ⟨?_, ?_, ?_, ?_⟩
  · constructor
    · intro ⟨j, hj, r, hr⟩
      have hne : (volcLoop outcomes 0 count).1 ≠ [] := by
        intro hnil
        rcases (volcLoop_results_nil_iff outcomes count 0).mp hnil j hj with ⟨e, he⟩
        rw [Nat.zero_add] at he
        rw [hr] at he
        exact absurd he (by simp)
      refine ⟨(volcLoop outcomes 0 count).1, ?_, hne⟩
      simp only [volcengineGenerateVariations]
      rw [if_neg hne]
    · intro ⟨rs, hrs, hne⟩
      by_contra hnone
      push_neg at hnone
      have hnil : (volcLoop outcomes 0 count).1 = [] := by
        apply (volcLoop_results_nil_iff outcomes count 0).mpr
        intro j hj
        rw [Nat.zero_add]
        cases h : outcomes j with
        | ok r => exact absurd h (hnone j hj r)
        | error e => exact ⟨e, rfl⟩
      cases h2 : (volcLoop outcomes 0 count).2 with
      | nil => simp [volcengineGenerateVariations, hnil, h2] at hrs
      | cons e es => simp [volcengineGenerateVariations, hnil, h2] at hrs
  · intro hall e he
    have hnil : (volcLoop outcomes 0 count).1 = [] :=
      (volcLoop_results_nil_iff outcomes count 0).mpr
        (fun j hj => by simpa using hall j hj)
    rcases volcLoop_errors_first outcomes count 0 e hcount he with ⟨es, hes⟩
    simp [volcengineGenerateVariations, hnil, hes]
  · intro hall
    rcases promiseAllFrom_all_ok outcomes count 0
        (fun j hj => by simpa using hall j hj) with ⟨rs, hrs, hlen⟩
    refine ⟨rs, hrs, ?_⟩
    intro hnil
    rw [hnil] at hlen
    simp at hlen
    omega
  · intro j hj e he
    exact promiseAllFrom_err outcomes count 0 j hj e (by simpa using he)

/-- Witness for the amended C1 statement: with both attempts failing, the
Volcengine fan-out surfaces the first recorded error. -/
theorem fanout_aggregate_semantics_witness :
    volcengineGenerateVariations (fun _ => .error "boom".data) 2 = .error "boom".data :=
  (fanout_aggregate_semantics (fun _ => .error "boom".data) 2 (by norm_num)).2.1
    (fun j _ => ⟨"boom".data, rfl⟩) "boom".data rfl

/-!
### Provider factory (claim C4)
-/

/-- C4: `createGenerator` throws the credential-missing error (before any
network activity — the factory performs none) exactly when the credential
required by the requested provider id is empty: the Volcengine secret key
for `"volcengine"`, the Gemini key for every other id (including unknown
ids, which fall back to the default Gemini adapter rather than failing on
the unknown identifier itself). -/
theorem factory_credential_check (t : JStr) (keys : ApiKeys) :
    (t = "volcengine".data → keys.volcengineSecretKey = [] →
      createGenerator t keys = .error "请在设置中填写火山方舟 API Key".data) ∧
    (t ≠ "volcengine".data → keys.geminiApiKey = [] →
      createGenerator t keys = .error "请在设置中填写 Gemini API Key".data) ∧
    (t = "volcengine".data → keys.volcengineSecretKey ≠ [] →
      createGenerator t keys =
        .ok (.volcengine [] keys.volcengineSecretKey keys.volcengineEndpoint)) ∧
    (t ≠ "gemini".data → t ≠ "volcengine".data → keys.geminiApiKey ≠ [] →
      createGenerator t keys = .ok (.gemini keys.geminiApiKey)) := by
  by_cases hg : t = "gemini".data
  · have hv : t ≠ "volcengine".data := by
      rw [hg]
      decide
    by_cases hk : keys.geminiApiKey = []
    · exact ⟨fun h => absurd h hv, fun _ _ => by simp [createGenerator, hg, hk],
        fun h => absurd h hv, fun h => absurd hg h⟩
    · exact ⟨fun h => absurd h hv, fun _ h => absurd h hk,
        fun h => absurd h hv, fun h => absurd hg h⟩
  · by_cases hv : t = "volcengine".data
    · by_cases hk : keys.volcengineSecretKey = []
      · exact ⟨fun _ _ => by simp [createGenerator, hg, hv, hk],
          fun h => absurd hv h, fun _ h => absurd hk h, fun _ h => absurd hv h⟩
      · exact ⟨fun _ h => absurd h hk,
          fun h => absurd hv h,
          fun _ _ => by simp [createGenerator, hg, hv, hk],
          fun _ h => absurd hv h⟩
    · by_cases hk : keys.geminiApiKey = []
      · exact ⟨fun h => absurd h hv, fun _ _ => by simp [createGenerator, hg, hv, hk],
          fun h => absurd h hv, fun _ _ h => absurd hk h⟩
      · exact ⟨fun h => absurd h hv, fun _ h => absurd h hk, fun h => absurd h hv,
          fun _ _ _ => by simp [createGenerator, hg, hv, hk]⟩

/-- Witness for C4: an unknown provider id (`"dalle"`) with a Gemini key
present falls back to the Gemini adapter; with the Gemini key empty it
fails with the credential-missing message. -/
theorem factory_credential_check_witness :
    createGenerator "dalle".data ⟨"g".data, [], [], none⟩ = .ok (.gemini "g".data) ∧
    createGenerator "dalle".data ⟨[], [], "s".data, none⟩ =
      .error "请在设置中填写 Gemini API Key".data :=
  ⟨(factory_credential_check "dalle".data ⟨"g".data, [], [], none⟩).2.2.2
      (by decide) (by decide) (by decide),
   (factory_credential_check "dalle".data ⟨[], [], "s".data, none⟩).2.1
      (by decide) rfl⟩

/-!
### Dimension resolver (claims C5-C8)
-/

/-- For non-custom aspect ratios the custom ratio string is ignored. -/
theorem targetRatioOf_nonCustom (ar : AspectRatio) (cr : Option JStr) (h : ar ≠ .custom) :
    targetRatioOf ar cr = targetRatioOf ar none := by
  unfold targetRatioOf
  rw [if_neg (fun hc => h hc.1), if_neg (fun hc => h hc.1)]

theorem calculateSize_nonCustom (res : VolcengineResolution) (ar : AspectRatio)
    (cr : Option JStr) (h : ar ≠ .custom) :
    calculateSize res ar cr = calculateSize res ar none := by
  simp only [calculateSize, targetRatioOf_nonCustom ar cr h]

/-- The shrink loop preserves divisibility of both dimensions by 32. -/
theorem shrinkLoop_dvd : ∀ fuel w h, 32 ∣ w → 32 ∣ h →
    32 ∣ (shrinkLoop fuel w h).1 ∧ 32 ∣ (shrinkLoop fuel w h).2 := by
  intro fuel
  induction fuel with
  | zero => intro w h hw hh; exact ⟨hw, hh⟩
  | succ fuel ih =>
    intro w h hw hh
    simp only [shrinkLoop]
    split
    · split
      · exact ih _ _ (Nat.dvd_sub' hw (dvd_refl 32)) hh
      · exact ih _ _ hw (Nat.dvd_sub' hh (dvd_refl 32))
    · exact ⟨hw, hh⟩

/-- C5 counterexample: for the custom ratio string `"16385:1"` at the 2K
tier, the resolved height rounds to `0` (the exact height before rounding
is `√(4194304/16385) ≈ 15.9995`, and `15.9995/32 < 1/2`), so the product
`width * height = 0` falls outside `[MIN_PIXELS, MAX_PIXELS]`. -/
theorem calculateSize_budget_counterexample :
    calculateSize .k2 .custom (some "16385:1".data) = (262144, 0) ∧
    ¬(MIN_PIXELS ≤ (calculateSize .k2 .custom (some "16385:1".data)).1 *
          (calculateSize .k2 .custom (some "16385:1".data)).2 ∧
        (calculateSize .k2 .custom (some "16385:1".data)).1 *
          (calculateSize .k2 .custom (some "16385:1".data)).2 ≤ MAX_PIXELS) := by
  decide

/-- The validity domain of the exact-integer reading of a custom ratio
string: every colon-separated part is a pure decimal digit run of at most
15 digits.  On such inputs JS `parseInt` yields the exact integer value
(all are below `10^15 < 2^53`, and the `0x` radix detection cannot fire),
the resulting ratio lies in `[10^-15, 10^15]`, and every intermediate of
the source's float pipeline stays finite, so the float64 source and this
exact model agree that the rounded dimensions are integer multiples of 32.
Outside this domain the source can produce `NaN`/`Infinity` dimensions
(e.g. a ~309-digit part saturates `parseInt` to `Infinity`, giving
`"NaNx0"`), which the exact model does not cover. -/
def decimalPartsSmall (cr : JStr) : Bool :=
  (splitOnC ':' cr).all (fun part => part.all isDigitC && decide (part.length ≤ 15))

/-- C5 amended: for every tier and aspect-ratio selection, both resolved
dimensions are exact multiples of the 32-pixel quantization unit whenever
any custom ratio string in play stays within the float64 exact-integer
regime (`decimalPartsSmall`: decimal parts of at most 15 digits — beyond
it JS `parseInt` saturates to `Infinity` and the source emits `NaN`
dimensions, outside this model); the pixel-budget containment
`width*height ∈ [MIN_PIXELS, MAX_PIXELS]` holds for every non-custom
(table-defined) selection, but not for arbitrary custom ratio strings
(see the counterexample, where a dimension rounds to zero). -/
theorem calculateSize_quantized_and_table_budget :
    (∀ res ar cr, (ar = .custom → decimalPartsSmall (cr.getD []) = true) →
      32 ∣ (calculateSize res ar cr).1 ∧ 32 ∣ (calculateSize res ar cr).2) ∧
    (∀ res ar cr, ar ≠ .custom →
      MIN_PIXELS ≤ (calculateSize res ar cr).1 * (calculateSize res ar cr).2 ∧
      (calculateSize res ar cr).1 * (calculateSize res ar cr).2 ≤ MAX_PIXELS) := by
  constructor
  · -- Within the restricted domain the model and the float64 source agree
    -- (see `decimalPartsSmall`); the model moreover satisfies the
    -- divisibility for its whole domain, since both dimensions enter the
    -- shrink loop as `32 * roundSqrtDiv ...`.
    intro res ar cr _hsmall
    simp only [calculateSize]
    exact shrinkLoop_dvd _ _ _ (dvd_mul_right 32 _) (dvd_mul_right 32 _)
  · intro res ar cr h
    rw [calculateSize_nonCustom res ar cr h]
    cases res <;> cases ar <;>
      first
        | exact absurd rfl h
        | decide

/-- Witness for the amended C5 statement: the quantization conjunct at the
2K custom `"21:9"` selection (which satisfies `decimalPartsSmall`), and
the budget conjunct at the 2K widescreen selection. -/
theorem calculateSize_quantized_and_table_budget_witness :
    (32 ∣ (calculateSize .k2 .custom (some "21:9".data)).1 ∧
      32 ∣ (calculateSize .k2 .custom (some "21:9".data)).2) ∧
    MIN_PIXELS ≤ (calculateSize .k2 .widescreen none).1 * (calculateSize .k2 .widescreen none).2 ∧
    (calculateSize .k2 .widescreen none).1 * (calculateSize .k2 .widescreen none).2 ≤ MAX_PIXELS :=
  ⟨calculateSize_quantized_and_table_budget.1 .k2 .custom (some "21:9".data)
      (fun _ => by decide),
   calculateSize_quantized_and_table_budget.2 .k2 .widescreen none (by decide)⟩

/-- C6: for both resolution tiers and each of the seven rows of the
`VOLCENGINE_ASPECT_RATIOS` table, the resolved size has its pixel product
within `[MIN_PIXELS, MAX_PIXELS]` and both dimensions multiples of 32. -/
theorem calculateSize_table_within_budget :
    ∀ res : VolcengineResolution, ∀ row ∈ VOLCENGINE_ASPECT_RATIOS,
      MIN_PIXELS ≤ (calculateSize res row.val none).1 * (calculateSize res row.val none).2 ∧
      (calculateSize res row.val none).1 * (calculateSize res row.val none).2 ≤ MAX_PIXELS ∧
      32 ∣ (calculateSize res row.val none).1 ∧ 32 ∣ (calculateSize res row.val none).2 := by
  intro res row hrow
  cases res <;> fin_cases hrow <;> decide

/-- Witness for C6 at the 4K ultrawide table row. -/
theorem calculateSize_table_within_budget_witness :
    MIN_PIXELS ≤ (calculateSize .k4 .ultrawide none).1 * (calculateSize .k4 .ultrawide none).2 ∧
    (calculateSize .k4 .ultrawide none).1 * (calculateSize .k4 .ultrawide none).2 ≤ MAX_PIXELS ∧
    32 ∣ (calculateSize .k4 .ultrawide none).1 ∧ 32 ∣ (calculateSize .k4 .ultrawide none).2 :=
  calculateSize_table_within_budget .k4 ⟨.ultrawide, "21:9".data, "1512x648".data⟩ (by decide)

/-- C7: for both tiers, the size resolved for the custom ratio string
`"21:9"` has `|width/height - 21/9| < 0.02`. -/
theorem calculateSize_custom_21_9_ratio (res : VolcengineResolution) :
    |((calculateSize res .custom (some "21:9".data)).1 : ℚ) /
        ((calculateSize res .custom (some "21:9".data)).2 : ℚ) - 21 / 9| < 2 / 100 := by
  cases res with
  | k2 =>
    have h : calculateSize .k2 .custom (some "21:9".data) = (3136, 1344) := by decide
    rw [h, abs_lt]
    constructor <;> norm_num
  | k4 =>
    have h : calculateSize .k4 .custom (some "21:9".data) = (6240, 2688) := by decide
    rw [h, abs_lt]
    constructor <;> norm_num

/-- The shared "custom ratio string parses as two positive integers"
condition of both resolvers (`parts.length === 2` and both `parseInt`
results numbers `> 0`). -/
def parsesAsRatio (cr : JStr) : Bool :=
  ((splitOnC ':' cr).length == 2) &&
    (match parseIntJS ((splitOnC ':' cr).getD 0 []),
        parseIntJS ((splitOnC ':' cr).getD 1 []) with
      | some w, some h => decide (0 < w) && decide (0 < h)
      | _, _ => false)

/-- An unparseable custom ratio leaves the Volcengine target ratio at its
`1` default. -/
theorem targetRatioOf_unparseable (cr : JStr) (h : parsesAsRatio cr = false) :
    targetRatioOf .custom (some cr) = (1, 1) := by
  by_cases hcr : cr = []
  · subst hcr
    decide
  · simp only [targetRatioOf, Option.getD_some]
    rw [if_pos ⟨trivial, hcr⟩]
    unfold parsesAsRatio at h
    by_cases hlen : (splitOnC ':' cr).length = 2
    · rw [if_pos hlen]
      simp only [hlen, beq_self_eq_true, Bool.true_and] at h
      cases hw : parseIntJS ((splitOnC ':' cr).getD 0 []) with
      | none => simp [hw]
      | some w =>
        cases hv : parseIntJS ((splitOnC ':' cr).getD 1 []) with
        | none => simp [hw, hv]
        | some v =>
          rw [hw, hv] at h
          simp only [Bool.and_eq_false_iff, decide_eq_false_iff_not, not_lt] at h
          simp only [hw, hv]
          rw [if_neg]
          rcases h with h | h
          · exact fun hc => absurd hc.1 (not_lt.mpr h)
          · exact fun hc => absurd hc.2 (not_lt.mpr h)
    · rw [if_neg hlen]

/-- An unparseable custom ratio sends the Stability resolver to the
`ratioMap` fallback, whose `custom` miss yields the 1920x1080 default. -/
theorem getDimensions_unparseable (cr : JStr) (h : parsesAsRatio cr = false) :
    getDimensionsFromAspectRatio .custom (some cr) = (1920, 1080) := by
  by_cases hcr : cr = []
  · subst hcr
    decide
  · simp only [getDimensionsFromAspectRatio, Option.getD_some]
    rw [if_pos ⟨trivial, hcr⟩]
    unfold parsesAsRatio at h
    by_cases hlen : (splitOnC ':' cr).length = 2
    · rw [if_pos hlen]
      simp only [hlen, beq_self_eq_true, Bool.true_and] at h
      cases hw : parseIntJS ((splitOnC ':' cr).getD 0 []) with
      | none => simp [hw, stabilityRatioMap]
      | some w =>
        cases hv : parseIntJS ((splitOnC ':' cr).getD 1 []) with
        | none => simp [hw, hv, stabilityRatioMap]
        | some v =>
          rw [hw, hv] at h
          simp only [Bool.and_eq_false_iff, decide_eq_false_iff_not, not_lt] at h
          simp only [hw, hv]
          rw [if_neg]
          · rfl
          · rcases h with h | h
            · exact fun hc => absurd hc.1 (not_lt.mpr h)
            · exact fun hc => absurd hc.2 (not_lt.mpr h)
    · rw [if_neg hlen]
      rfl

/-- C8 counterexample: for the unparseable custom ratio `"abc"`, the
Stability resolver does *not* fall back to a square: it returns its
1920x1080 widescreen default. -/
theorem stability_unparseable_not_square_counterexample :
    parsesAsRatio "abc".data = false ∧
    getDimensionsFromAspectRatio .custom (some "abc".data) = (1920, 1080) ∧
    (getDimensionsFromAspectRatio .custom (some "abc".data)).1 ≠
      (getDimensionsFromAspectRatio .custom (some "abc".data)).2 := by
  decide

/-- C8 amended: on a custom ratio string that does not parse as two
positive integers, the Volcengine resolver silently falls back to a 1:1
square (2048x2048 at 2K, 4096x4096 at 4K), while the Stability resolver
silently falls back to its 1920x1080 widescreen default — neither raises
an error, but only Volcengine yields a square. -/
theorem unparseable_ratio_fallback :
    (∀ cr, parsesAsRatio cr = false →
      calculateSize .k2 .custom (some cr) = (2048, 2048) ∧
      calculateSize .k4 .custom (some cr) = (4096, 4096)) ∧
    (∀ cr, parsesAsRatio cr = false →
      getDimensionsFromAspectRatio .custom (some cr) = (1920, 1080)) := by
  constructor
  · intro cr h
    have ht := targetRatioOf_unparseable cr h
    constructor
    · simp only [calculateSize, ht]
      decide
    · simp only [calculateSize, ht]
      decide
  · intro cr h
    exact getDimensions_unparseable cr h

/-- Witness for the amended C8 statement at the concrete string `"abc"`. -/
theorem unparseable_ratio_fallback_witness :
    calculateSize .k2 .custom (some "abc".data) = (2048, 2048) ∧
    getDimensionsFromAspectRatio .custom (some "xy:".data) = (1920, 1080) :=
  ⟨(unparseable_ratio_fallback.1 "abc".data (by decide)).1,
   unparseable_ratio_fallback.2 "xy:".data (by decide)⟩

/-!
### Batch sequencer (claim C9)
-/

/-- `updateSlide` preserves the id sequence when the update map does. -/
theorem updateSlideWith_map_id (slides : List SlideData) (id : JStr)
    (f : SlideData → SlideData) (hf : ∀ s, (f s).id = s.id) :
    (updateSlideWith slides id f).map SlideData.id = slides.map SlideData.id := by
  unfold updateSlideWith
  rw [List.map_map]
  apply List.map_congr_left
  intro s _
  by_cases h : s.id = id <;> simp [h, hf]

/-- `generateSlide` preserves the id sequence of the slide list. -/
theorem generateSlide_map_id (outcome : JStr → Except JStr (List JStr)) (apiKeys : ApiKeys)
    (slides : List SlideData) (id : JStr) :
    ((generateSlide outcome apiKeys slides id).1).map SlideData.id = slides.map SlideData.id := by
  unfold generateSlide
  cases hfind : slides.find? (fun s => s.id = id) with
  | none => rfl
  | some s =>
    cases hout : outcome id with
    | ok images =>
      dsimp only
      refine (updateSlideWith_map_id _ _ _ ?_).trans (updateSlideWith_map_id _ _ _ ?_) <;>
        exact fun s => rfl
    | error msg =>
      dsimp only
      refine (updateSlideWith_map_id _ _ _ ?_).trans (updateSlideWith_map_id _ _ _ ?_) <;>
        exact fun s => rfl

/-- A slide whose id occurs in the list is found, marked `generating`, and
settled; the emitted events are exactly that pair of transitions. -/
theorem generateSlide_events (outcome : JStr → Except JStr (List JStr)) (apiKeys : ApiKeys)
    (slides : List SlideData) (id : JStr) (hmem : id ∈ slides.map SlideData.id) :
    (generateSlide outcome apiKeys slides id).2 =
      [(id, .generating), (id, settleStatus (outcome id))] := by
  unfold generateSlide
  rcases List.mem_map.mp hmem with ⟨s, hs, hsid⟩
  have hsome : (slides.find? (fun s => s.id = id)).isSome := by
    rw [List.find?_isSome]
    exact ⟨s, hs, by simp [hsid]⟩
  cases hfind : slides.find? (fun s => s.id = id) with
  | none => rw [hfind] at hsome; exact absurd hsome (by simp)
  | some s' =>
    cases hout : outcome id with
    | ok images => simp [settleStatus, hout]
    | error msg => simp [settleStatus, hout]

/-- The sequential loop emits, for each target in order, its `generating`
transition followed by its settling transition. -/
theorem processTargets_trace (outcome : JStr → Except JStr (List JStr)) (apiKeys : ApiKeys) :
    ∀ ts slides, (∀ t ∈ ts, t.id ∈ slides.map SlideData.id) →
      (processTargets outcome apiKeys ts slides).2 =
        ts.flatMap (fun t => [(t.id, .generating), (t.id, settleStatus (outcome t.id))]) := by
  intro ts
  induction ts with
  | nil => intro slides _; rfl
  | cons t ts ih =>
    intro slides hmem
    simp only [processTargets, List.flatMap_cons]
    rw [generateSlide_events outcome apiKeys slides t.id (hmem t (List.mem_cons_self t ts))]
    rw [ih (generateSlide outcome apiKeys slides t.id).1 (fun t' ht' => by
      rw [generateSlide_map_id]
      exact hmem t' (List.mem_cons_of_mem t ht'))]

/-- C9: a batch run processes exactly the slides selected by
`batchTargets` (status `idle` or `error`, or no prior results), strictly
one at a time in list order: the observable transition trace is, for each
selected slide in order, `generating` followed by `success` or `error`
according to that slide's outcome — so an erroring job is followed by the
next job's transitions rather than aborting the batch. -/
theorem batch_sequential_trace (outcome : JStr → Except JStr (List JStr)) (apiKeys : ApiKeys)
    (slides : List SlideData) :
    (handleBatchGenerate outcome apiKeys slides).2 =
      (batchTargets slides).flatMap
        (fun t => [(t.id, .generating), (t.id, settleStatus (outcome t.id))]) := by
  unfold handleBatchGenerate
  apply processTargets_trace
  intro t ht
  exact List.mem_map_of_mem SlideData.id (List.mem_of_mem_filter ht)

/-!
### Gemini credential independence (claim C10)
-/

/-- C10: the Gemini adapter's generation behavior is independent of the
credential supplied at construction.  For any two key bundles the factory
accepts for provider `"gemini"`, the constructed adapters issue the very
same request on every input, because the request is built from the ambient
`process.env.API_KEY` and the constructor argument is discarded; in
particular the client key used is the environment key. -/
theorem gemini_request_credential_independent (keys1 keys2 : ApiKeys) (env : Option JStr)
    (settings : GenerationSettings) (slideContent : JStr) (slideImage : Option JStr)
    (h1 : keys1.geminiApiKey ≠ []) (h2 : keys2.geminiApiKey ≠ []) :
    createGenerator "gemini".data keys1 = .ok (.gemini keys1.geminiApiKey) ∧
    createGenerator "gemini".data keys2 = .ok (.gemini keys2.geminiApiKey) ∧
    geminiIssuedRequest keys1.geminiApiKey env settings slideContent slideImage =
      geminiIssuedRequest keys2.geminiApiKey env settings slideContent slideImage ∧
    (geminiIssuedRequest keys1.geminiApiKey env settings slideContent slideImage).clientApiKey =
      env := by
  refine ⟨?_, ?_, rfl, rfl⟩
  · simp [createGenerator, h1]
  · simp [createGenerator, h2]

/-- Witness for C10 at two distinct concrete keys. -/
theorem gemini_request_credential_independent_witness :
    createGenerator "gemini".data ⟨"k1".data, [], [], none⟩ = .ok (.gemini "k1".data) ∧
    createGenerator "gemini".data ⟨"k2".data, [], [], none⟩ = .ok (.gemini "k2".data) ∧
    geminiIssuedRequest "k1".data (some "ENV".data)
        ⟨[], [], [], none, .pro, .widescreen, none, .k1, "gemini".data, .seeddream45, .k2⟩
        [] none =
      geminiIssuedRequest "k2".data (some "ENV".data)
        ⟨[], [], [], none, .pro, .widescreen, none, .k1, "gemini".data, .seeddream45, .k2⟩
        [] none ∧
    (geminiIssuedRequest "k1".data (some "ENV".data)
        ⟨[], [], [], none, .pro, .widescreen, none, .k1, "gemini".data, .seeddream45, .k2⟩
        [] none).clientApiKey = some "ENV".data :=
  gemini_request_credential_independent ⟨"k1".data, [], [], none⟩ ⟨"k2".data, [], [], none⟩
    (some "ENV".data)
    ⟨[], [], [], none, .pro, .widescreen, none, .k1, "gemini".data, .seeddream45, .k2⟩
    [] none (by decide) (by decide)
